import Mathlib

/-!
Shallow embedding of the AskDeck API backend (src/server.js).

The server exposes two routes: POST /api/askdeck and GET /api/health.
The askdeck handler checks that the AI model handle was initialized at
startup, validates the request body fields, composes a prompt, sends it
through a chat session, and maps the remote result (or a thrown transport
error) to an HTTP response.  Everything below is a direct translation of
that handler into pure Lean functions: JavaScript optional fields become
`Option`, JS truthiness of string-valued fields becomes `truthy`, the
remote call becomes an explicit `send` parameter whose invocation count is
recorded, and console logging becomes an explicit list of `LogEvent`s.
-/

namespace AskDeck

/-- One content part of a candidate, i.e. `candidates[i].content.parts[j]`.
Its `text` field is the string relayed to the client on success. -/
structure Part where
  text : String
deriving DecidableEq, Repr

/-- The `content` object of a candidate; its `parts` array may be absent. -/
structure Content where
  parts : Option (List Part)
deriving DecidableEq, Repr

/-- One candidate completion; its `content` object may be absent. -/
structure Candidate where
  content : Option Content
deriving DecidableEq, Repr

/-- The `promptFeedback` object; `blockReason` may be absent. -/
structure PromptFeedback where
  blockReason : Option String
deriving DecidableEq, Repr

/-- The `result.response` object returned by the remote service. -/
structure GeminiResponse where
  candidates : Option (List Candidate)
  promptFeedback : Option PromptFeedback
deriving DecidableEq, Repr

/-- The value awaited from `chatSession.sendMessage`; `response` may be absent. -/
structure GeminiResult where
  response : Option GeminiResponse
deriving DecidableEq, Repr

/-- A JSON response body produced by one of the handlers:
a success reply, an error object, or the health payload. -/
inductive RespBody where
  | reply (text : String)
  | error (msg : String)
  | health (status msg : String)
deriving DecidableEq, Repr

/-- An HTTP response: status code plus JSON body. -/
structure HttpResponse where
  status : Nat
  body : RespBody
deriving DecidableEq, Repr

/-- JS truthiness of an optional string-valued request field:
`undefined` and the empty string are falsy, every other string is truthy.
This is what `!message` and `!context` test in the handler. -/
def truthy : Option String → Bool
  | none => false
  | some s => s != ""

/-- The composed prompt, from the template literal on line 63 of server.js:
context, separator, the user question, and the answer marker. -/
def fullPrompt (context message : String) : String :=
  context ++ "\n\n---\n\nUser Question: " ++ message ++ "\n\nAskDeck Response:"

/-- The success condition and extraction of the handler, mirroring the chain
`result.response && result.response.candidates && candidates.length > 0 &&
candidates[0].content && candidates[0].content.parts && parts.length > 0`
followed by the access `candidates[0].content.parts[0]`.  Each `&&` guard is
an `Option` bind; the result is the first part of the first candidate when
every guard passes, and `none` otherwise. -/
def firstUsablePart (r : GeminiResult) : Option Part := do
  let resp ← r.response
  let cands ← resp.candidates
  let c0 ← cands.head?
  let content ← c0.content
  let parts ← content.parts
  parts.head?

/-- The truthiness test `result.response?.promptFeedback?.blockReason` from the
error branch: `some reason` exactly when the optional chain reaches a block
reason that is a non-empty string, since an empty string is falsy in JS. -/
def blockReasonTruthy (r : GeminiResult) : Option String :=
  match r.response with
  | none => none
  | some resp =>
    match resp.promptFeedback with
    | none => none
    | some pf =>
      match pf.blockReason with
      | none => none
      | some s => if s = "" then none else some s

/-- A console log line emitted by the askdeck handler, abstracted to the
branch that emits it and the data it carries. -/
inductive LogEvent where
  | configError
  | blockedWarn (reason : String)
  | noValidCandidate (raw : Option GeminiResponse)
  | endpointError (msg : String)
deriving DecidableEq, Repr

/-- The response-inspection tail of the handler (lines 67-78 of server.js):
success when the first candidate has a first part, otherwise the blocked
error when a truthy block reason is present, otherwise the generic
malformed-response error with the raw response logged. -/
def handleResult (r : GeminiResult) : HttpResponse × List LogEvent :=
  match firstUsablePart r with
  | some p => (⟨200, .reply p.text⟩, [])
  | none =>
    match blockReasonTruthy r with
    | some reason =>
        (⟨500, .error ("Response blocked: " ++ reason)⟩, [.blockedWarn reason])
    | none =>
        (⟨500, .error "AI did not provide a valid response."⟩,
          [.noValidCandidate r.response])

/-- Outcome of `await chatSession.sendMessage(prompt)`: either a result value
or a thrown error carrying a message string. -/
inductive SendOutcome where
  | ok (result : GeminiResult)
  | thrown (msg : String)

/-- What one invocation of the askdeck handler produces: the HTTP response,
the number of times the remote service was contacted, and the log lines. -/
structure HandlerOutcome where
  resp : HttpResponse
  sendCount : Nat
  logs : List LogEvent
deriving Repr

/-- The configuration-error body text returned when the model handle is not
initialized. -/
def configErrorMsg : String :=
  "AI service is not configured correctly on the server. Check model ID and API key."

/-- The POST /api/askdeck handler (lines 53-83 of server.js).  `modelOk` is
the truthiness of the global `model` handle fixed at startup; `message` and
`context` are the request-body fields; `send` is the remote call
`prompt => sendMessage(prompt)`, whose throwing is modelled by
`SendOutcome.thrown`.  The `sendCount` field records how often `send` was
invoked on the taken path. -/
def askdeckHandler (modelOk : Bool) (message context : Option String)
    (send : String → SendOutcome) : HandlerOutcome :=
  if !modelOk then
    ⟨⟨500, .error configErrorMsg⟩, 0, [.configError]⟩
  else if !truthy message || !truthy context then
    ⟨⟨400, .error "Message and context are required."⟩, 0, []⟩
  else
    let prompt := fullPrompt (context.getD "") (message.getD "")
    match send prompt with
    | .thrown m =>
        ⟨⟨500, .error ("Failed to get response from AI: " ++ m)⟩, 1,
          [.endpointError m]⟩
    | .ok r =>
        let (resp, logs) := handleResult r
        ⟨resp, 1, logs⟩

/-- Startup initialization of the global `model` handle (lines 19-34 of
server.js): the handle exists iff the API key environment variable is truthy
and client construction did not throw. -/
def modelInitialized (apiKey : Option String) (constructionOk : Bool) : Bool :=
  truthy apiKey && constructionOk

/-- The GET /api/health handler (lines 85-87 of server.js).  The gateway
state is in scope for the closure but never read: the response is constant. -/
def healthHandler (_gw : Bool) : HttpResponse :=
  ⟨200, .health "ok" "AskDeck API backend is running on Render."⟩

/-- A candidate with a non-empty parts list, the spec's notion of a usable
candidate; used to state claim hypotheses about results with no usable
candidate. -/
def candidateUsable (c : Candidate) : Bool :=
  match c.content with
  | none => false
  | some ct =>
    match ct.parts with
    | none => false
    | some ps => !ps.isEmpty

/-- Whether a remote result contains some candidate with a non-empty parts
list. -/
def hasUsableCandidate (r : GeminiResult) : Bool :=
  match r.response with
  | none => false
  | some resp =>
    match resp.candidates with
    | none => false
    | some cs => cs.any candidateUsable

/-- If no candidate at all is usable then in particular the handler's chained
success check, which looks only at the first candidate, fails. -/
theorem firstUsablePart_none_of_no_usable (r : GeminiResult)
    (h : hasUsableCandidate r = false) : firstUsablePart r = none := by
  rcases r with ⟨_ | ⟨cands, pf⟩⟩
  · rfl
  rcases cands with _ | ⟨_ | ⟨c0, rest⟩⟩
  · rfl
  · rfl
  simp only [hasUsableCandidate, List.any_cons, Bool.or_eq_false_iff] at h
  obtain ⟨h0, _⟩ := h
  rcases c0 with ⟨_ | ⟨_ | ⟨_ | ⟨p, ps⟩⟩⟩⟩
  · rfl
  · rfl
  · rfl
  · simp [candidateUsable] at h0

/-- C2: for non-empty context and message, the composed prompt is exactly
the context, the separator, the literal question behind the marker
"User Question: ", and the final marker "AskDeck Response:"; in particular
it starts with the context verbatim and ends with the marker preceded by the
literal question.  `fullPrompt` is a total pure function. -/
theorem C2_fullPrompt_shape (c m : String) (hc : c ≠ "") (hm : m ≠ "") :
    fullPrompt c m =
      c ++ "\n\n---\n\nUser Question: " ++ m ++ "\n\nAskDeck Response:" ∧
    (∃ rest, fullPrompt c m = c ++ rest) ∧
    (∃ front, fullPrompt c m = front ++ (m ++ "\n\nAskDeck Response:")) := by
  refine ⟨rfl,
    ⟨"\n\n---\n\nUser Question: " ++ m ++ "\n\nAskDeck Response:", ?_⟩,
    ⟨c ++ "\n\n---\n\nUser Question: ", ?_⟩⟩
  · simp [fullPrompt, String.append_assoc]
  · simp [fullPrompt, String.append_assoc]

/-- Witness for C2 at context "CTX" and message "Q". -/
theorem C2_fullPrompt_shape_witness :
    ("CTX" : String) ≠ "" ∧ ("Q" : String) ≠ "" ∧
    (fullPrompt "CTX" "Q" =
      "CTX" ++ "\n\n---\n\nUser Question: " ++ "Q" ++ "\n\nAskDeck Response:" ∧
    (∃ rest, fullPrompt "CTX" "Q" = "CTX" ++ rest) ∧
    (∃ front, fullPrompt "CTX" "Q" = front ++ ("Q" ++ "\n\nAskDeck Response:"))) :=
  ⟨by decide, by decide, C2_fullPrompt_shape "CTX" "Q" (by decide) (by decide)⟩

/-- C1 counterexample: a result whose first candidate holds exactly one part
with empty text is treated as Success by the handler, which answers 200 with
an empty reply, not the generic malformed-response error the claim assigns
to it. -/
theorem C1_counterexample :
    askdeckHandler true (some "q") (some "ctx")
      (fun _ => .ok ⟨some ⟨some [⟨some ⟨some [⟨""⟩]⟩⟩], none⟩⟩) =
      ⟨⟨200, .reply ""⟩, 1, []⟩ ∧
    (askdeckHandler true (some "q") (some "ctx")
      (fun _ => .ok ⟨some ⟨some [⟨some ⟨some [⟨""⟩]⟩⟩], none⟩⟩)).resp ≠
      ⟨500, .error "AI did not provide a valid response."⟩ := by
  constructor
  · rfl
  · decide

/-- C1 (amended): whenever the first candidate of the result has a non-empty
parts list — the part's text may be empty, emptiness of the text is not
checked — the handler answers 200 with the first part's text as reply and
contacts the remote service exactly once; an empty candidate list falls to
the generic malformed-response error. -/
theorem C1_success_first_part (message context : Option String)
    (hm : truthy message = true) (hc : truthy context = true)
    (p : Part) (ps : List Part) (cs : List Candidate)
    (pf : Option PromptFeedback) :
    askdeckHandler true message context
      (fun _ => .ok ⟨some ⟨some (⟨some ⟨some (p :: ps)⟩⟩ :: cs), pf⟩⟩) =
      ⟨⟨200, .reply p.text⟩, 1, []⟩ := by
  simp [askdeckHandler, hm, hc, handleResult, firstUsablePart]

/-- Witness for the amended C1: a single candidate with the single part
"Paris" yields 200 with reply "Paris". -/
theorem C1_success_first_part_witness :
    truthy (some "q") = true ∧ truthy (some "ctx") = true ∧
    askdeckHandler true (some "q") (some "ctx")
      (fun _ => .ok ⟨some ⟨some [⟨some ⟨some [⟨"Paris"⟩]⟩⟩], none⟩⟩) =
      ⟨⟨200, .reply "Paris"⟩, 1, []⟩ :=
  ⟨by decide, by decide,
    C1_success_first_part (some "q") (some "ctx") (by decide) (by decide)
      ⟨"Paris"⟩ [] [] none⟩

/-- C3: on a result with no usable candidate that carries a (truthy) block
reason at the prompt-feedback level, the handler answers 500 with the body
error "Response blocked: " followed by the reason. -/
theorem C3_blocked (r : GeminiResult) (reason : String)
    (hu : hasUsableCandidate r = false)
    (hb : blockReasonTruthy r = some reason)
    (message context : Option String)
    (hm : truthy message = true) (hc : truthy context = true) :
    askdeckHandler true message context (fun _ => .ok r) =
      ⟨⟨500, .error ("Response blocked: " ++ reason)⟩, 1,
        [.blockedWarn reason]⟩ := by
  have h1 := firstUsablePart_none_of_no_usable r hu
  simp [askdeckHandler, hm, hc, handleResult, h1, hb]

/-- Witness for C3: an empty candidate list with block reason "SAFETY" yields
500 with the body error "Response blocked: SAFETY". -/
theorem C3_blocked_witness :
    hasUsableCandidate ⟨some ⟨some [], some ⟨some "SAFETY"⟩⟩⟩ = false ∧
    blockReasonTruthy ⟨some ⟨some [], some ⟨some "SAFETY"⟩⟩⟩ = some "SAFETY" ∧
    askdeckHandler true (some "q") (some "ctx")
      (fun _ => .ok ⟨some ⟨some [], some ⟨some "SAFETY"⟩⟩⟩) =
      ⟨⟨500, .error "Response blocked: SAFETY"⟩, 1, [.blockedWarn "SAFETY"]⟩ := by
  refine ⟨by decide, by decide, ?_⟩
  have h := C3_blocked ⟨some ⟨some [], some ⟨some "SAFETY"⟩⟩⟩ "SAFETY"
    (by decide) (by decide) (some "q") (some "ctx") (by decide) (by decide)
  simpa using h

/-- C4: when the remote submission throws with message m, the handler
answers 500 with the body error "Failed to get response from AI: " followed
by m, and the remote service was contacted exactly once — a single attempt,
no retry. -/
theorem C4_transport_error (m : String) (message context : Option String)
    (hm : truthy message = true) (hc : truthy context = true) :
    askdeckHandler true message context (fun _ => .thrown m) =
      ⟨⟨500, .error ("Failed to get response from AI: " ++ m)⟩, 1,
        [.endpointError m]⟩ := by
  simp [askdeckHandler, hm, hc]

/-- Witness for C4 at the spec's "ECONNRESET" example. -/
theorem C4_transport_error_witness :
    truthy (some "q") = true ∧ truthy (some "ctx") = true ∧
    askdeckHandler true (some "q") (some "ctx") (fun _ => .thrown "ECONNRESET") =
      ⟨⟨500, .error "Failed to get response from AI: ECONNRESET"⟩, 1,
        [.endpointError "ECONNRESET"]⟩ := by
  refine ⟨by decide, by decide, ?_⟩
  have h := C4_transport_error "ECONNRESET" (some "q") (some "ctx")
    (by decide) (by decide)
  simpa using h

/-- C5: when startup left the model handle uninitialized (API key absent or
client construction failed), every askdeck request gets the 500
configuration error and the remote service is never contacted
(send count 0). -/
theorem C5_disabled_gateway (apiKey : Option String) (ctorOk : Bool)
    (hdis : modelInitialized apiKey ctorOk = false)
    (message context : Option String) (send : String → SendOutcome) :
    askdeckHandler (modelInitialized apiKey ctorOk) message context send =
      ⟨⟨500, .error configErrorMsg⟩, 0, [.configError]⟩ := by
  rw [hdis]
  rfl

/-- Witness for C5: absent API key, valid body, a send stub that would
answer — the response is still the configuration error and send count 0. -/
theorem C5_disabled_gateway_witness :
    modelInitialized none true = false ∧
    askdeckHandler (modelInitialized none true) (some "q") (some "ctx")
      (fun _ => .thrown "unreached") =
      ⟨⟨500, .error configErrorMsg⟩, 0, [.configError]⟩ :=
  ⟨by decide,
    C5_disabled_gateway none true (by decide) (some "q") (some "ctx")
      (fun _ => .thrown "unreached")⟩

/-- C6: on a result with no usable candidate and no truthy prompt-feedback
block reason, the handler answers 500 with the generic body error
"AI did not provide a valid response." and logs the raw response for
diagnosis. -/
theorem C6_malformed (r : GeminiResult)
    (hu : hasUsableCandidate r = false)
    (hb : blockReasonTruthy r = none)
    (message context : Option String)
    (hm : truthy message = true) (hc : truthy context = true) :
    askdeckHandler true message context (fun _ => .ok r) =
      ⟨⟨500, .error "AI did not provide a valid response."⟩, 1,
        [.noValidCandidate r.response]⟩ := by
  have h1 := firstUsablePart_none_of_no_usable r hu
  simp [askdeckHandler, hm, hc, handleResult, h1, hb]

/-- Witness for C6: an empty candidate list without prompt feedback yields
the generic 500 error and the raw response is logged. -/
theorem C6_malformed_witness :
    hasUsableCandidate ⟨some ⟨some [], none⟩⟩ = false ∧
    blockReasonTruthy ⟨some ⟨some [], none⟩⟩ = none ∧
    askdeckHandler true (some "q") (some "ctx")
      (fun _ => .ok ⟨some ⟨some [], none⟩⟩) =
      ⟨⟨500, .error "AI did not provide a valid response."⟩, 1,
        [.noValidCandidate (some ⟨some [], none⟩)]⟩ := by
  refine ⟨by decide, by decide, ?_⟩
  have h := C6_malformed ⟨some ⟨some [], none⟩⟩ (by decide) (by decide)
    (some "q") (some "ctx") (by decide) (by decide)
  simpa using h

/-- C7: with the gateway enabled, a falsy message together with a truthy
context — or symmetrically a falsy context with a truthy message — is
answered 400 with the body error "Message and context are required." and the
gateway is not invoked. -/
theorem C7_validation_400 (message context : Option String)
    (send : String → SendOutcome)
    (h : (truthy message = false ∧ truthy context = true) ∨
         (truthy context = false ∧ truthy message = true)) :
    askdeckHandler true message context send =
      ⟨⟨400, .error "Message and context are required."⟩, 0, []⟩ := by
  rcases h with ⟨h1, _⟩ | ⟨h1, _⟩ <;> simp [askdeckHandler, h1]

/-- Witness for C7: absent message with a present context yields 400 and no
gateway call. -/
theorem C7_validation_400_witness :
    (truthy (none : Option String) = false ∧ truthy (some "ctx") = true) ∧
    askdeckHandler true none (some "ctx") (fun _ => .thrown "unreached") =
      ⟨⟨400, .error "Message and context are required."⟩, 0, []⟩ :=
  ⟨⟨by decide, by decide⟩,
    C7_validation_400 none (some "ctx") (fun _ => .thrown "unreached")
      (Or.inl ⟨by decide, by decide⟩)⟩

/-- C8 counterexample: a body with message present but equal to the empty
string and context present is rejected with 400 and never reaches the
gateway — it does not pass validation as the claim states. -/
theorem C8_counterexample :
    askdeckHandler true (some "") (some "ctx") (fun _ => .thrown "unreached") =
      ⟨⟨400, .error "Message and context are required."⟩, 0, []⟩ := by
  rfl

/-- C8 (amended): validation tests JS falsiness, which rejects the empty
string as well as absence: whenever message or context is the empty string,
the handler answers 400 and the gateway is not invoked, regardless of the
other field. -/
theorem C8_empty_string_rejected (message context : Option String)
    (send : String → SendOutcome) :
    askdeckHandler true (some "") context send =
      ⟨⟨400, .error "Message and context are required."⟩, 0, []⟩ ∧
    askdeckHandler true message (some "") send =
      ⟨⟨400, .error "Message and context are required."⟩, 0, []⟩ := by
  constructor <;> simp [askdeckHandler, truthy]

/-- C9: the health handler answers 200 with the fixed payload of status "ok"
and a fixed message, whatever the gateway state. -/
theorem C9_health (gw : Bool) :
    healthHandler gw =
      ⟨200, .health "ok" "AskDeck API backend is running on Render."⟩ := rfl

/-- C10: the disabled-gateway check precedes field validation: with the
gateway disabled every request, even one with both fields missing, gets the
500 configuration error, and a 400 validation response can only arise when
the gateway is enabled. -/
theorem C10_disabled_before_validation :
    (∀ (message context : Option String) (send : String → SendOutcome),
        askdeckHandler false message context send =
          ⟨⟨500, .error configErrorMsg⟩, 0, [.configError]⟩) ∧
    (∀ (gw : Bool) (message context : Option String)
        (send : String → SendOutcome),
        (askdeckHandler gw message context send).resp.status = 400 →
        gw = true) := by
  constructor
  · intro message context send
    rfl
  · intro gw message context send h
    cases gw
    · simp [askdeckHandler] at h
    · rfl

/-- Witness for C10: with the gateway disabled and both fields absent the
response is the configuration error, and at an input whose response is 400
the gateway flag is indeed true. -/
theorem C10_disabled_before_validation_witness :
    askdeckHandler false none none (fun _ => .thrown "unreached") =
      ⟨⟨500, .error configErrorMsg⟩, 0, [.configError]⟩ ∧
    (askdeckHandler true none (some "ctx")
        (fun _ => .thrown "unreached")).resp.status = 400 ∧
    (true : Bool) = true :=
  ⟨C10_disabled_before_validation.1 none none (fun _ => .thrown "unreached"),
    by decide,
    C10_disabled_before_validation.2 true none (some "ctx")
      (fun _ => .thrown "unreached") (by decide)⟩

end AskDeck
